import Mathlib

/-!
Verification development for the CallkaroMCP telephony MCP server.

Shallow embedding of the services in src: the WebSocket connection
registry (services/WebSocketServer.ts), the audio accumulator
(services/AudioProcessor.ts), the auth token validator (services/auth.ts),
the summarization service (services/summarization.ts), the Twilio
provider adapter (services/twilio.ts), the transcription service
(services/transcription.ts) and the tool handlers (index.ts, tools.ts,
mcpServer.ts).  External collaborators (the Twilio network API, the
clock, base64 decoding) are injected as parameters; everything the
repository computes itself is translated directly from the source.
-/

/-- Association-list lookup keyed by string, mirroring JS `Map.get`:
first entry whose key matches wins. -/
def mapGet {α : Type} : List (String × α) → String → Option α
  | [], _ => none
  | (k, v) :: rest, key => if k = key then some v else mapGet rest key

/-- Association-list update, mirroring JS `Map.set`: replace the entry
if the key is present, otherwise append it. -/
def mapSet {α : Type} : List (String × α) → String → α → List (String × α)
  | [], key, v => [(key, v)]
  | (k, w) :: rest, key, v =>
      if k = key then (key, v) :: rest else (k, w) :: mapSet rest key v

/-- Association-list removal, mirroring JS `Map.delete`. -/
def mapDel {α : Type} (m : List (String × α)) (key : String) : List (String × α) :=
  m.filter (fun p => p.1 != key)

/-- After deleting a key, looking it up yields nothing. -/
lemma mapGet_mapDel {α : Type} (m : List (String × α)) (key : String) :
    mapGet (mapDel m key) key = none := by
  induction m with
  | nil => rfl
  | cons p rest ih =>
      simp only [mapDel, List.filter_cons] at ih ⊢
      by_cases h : p.1 = key
      · simp [h, ih]
      · simp [h, mapGet, ih]

/-- Socket ready states of the `ws` library; `opened` models
`WebSocket.OPEN` (the constructor name avoids the Lean keyword). -/
inductive ReadyState
  | connecting
  | opened
  | closing
  | closed
  deriving DecidableEq, Repr

/-- Message types of `WebSocketMessage` in types/websocket.ts. -/
inductive WsType
  | connect
  | media
  | mark
  | error
  | transcription
  deriving DecidableEq, Repr

/-- The `media` object inside an AudioChunk payload.  `b64` is the raw
base64 string of `media.payload` (the JS code tests its truthiness) and
`bytes` is the byte sequence the runtime base64 decoder produces from
`b64`, carried alongside because decoding is external.  The
unread `track`/`chunk`/`timestamp` fields are omitted. -/
structure MediaData where
  b64 : String
  bytes : List Nat
  deriving DecidableEq, Repr

/-- The payload object of a stream message (`AudioChunk` in
AudioProcessor.ts): an optional `media` part; the `mark` part is only
logged by the code, so just its presence is kept. -/
structure ChunkPayload where
  media : Option MediaData := none
  markPresent : Bool := false
  deriving DecidableEq, Repr

/-- WebSocketMessage of types/websocket.ts: a type tag, optional stream
identifier, optional payload and optional error text. -/
structure WsMessage where
  type : WsType
  streamSid : Option String := none
  payload : Option ChunkPayload := none
  error : Option String := none
  deriving DecidableEq, Repr

/-- State of WSServer (services/WebSocketServer.ts): the connection
table keyed by connection identifier together with each socket ready
state, and the set of registered stream-handler keys (the handler
functions themselves live in the audio accumulator, modelled below). -/
structure WSState where
  connections : List (String × ReadyState)
  streamHandlers : List String
  deriving DecidableEq, Repr

/-- The synthetic message delivered to stream handlers when a socket
closes: type `error`, the streamSid, and error text `Connection closed`. -/
def closeNotice (sid : String) : WsMessage :=
  { type := .error, streamSid := some sid, error := some "Connection closed" }

/-- The close-event handler of WSServer.handleConnection: delete the
connection from the table, then call every registered stream handler with
the synthetic `Connection closed` error message.  Returns the new state
and the list of (streamSid, message) notifications delivered. -/
def wsOnClose (connectionId : String) (st : WSState) :
    WSState × List (String × WsMessage) :=
  ({ st with connections := mapDel st.connections connectionId },
   st.streamHandlers.map (fun sid => (sid, closeNotice sid)))

/-- The error-event handler of WSServer.handleConnection: delete the
connection from the table.  No stream handler is called. -/
def wsOnError (connectionId : String) (st : WSState) :
    WSState × List (String × WsMessage) :=
  ({ st with connections := mapDel st.connections connectionId }, [])

/-- WSServer.broadcast over the connection list: send the message tagged
with the stream identifier to every open socket, deleting non-open
sockets from the table as the loop visits them.  Returns the surviving
connection list and the (connectionId, sent message) pairs in iteration
order. -/
def broadcastGo (sid : String) (msg : WsMessage) :
    List (String × ReadyState) →
      List (String × ReadyState) × List (String × WsMessage)
  | [] => ([], [])
  | (cid, rs) :: rest =>
      let next := broadcastGo sid msg rest
      if rs = ReadyState.opened then
        ((cid, rs) :: next.1, (cid, { msg with streamSid := some sid }) :: next.2)
      else
        next

/-- WSServer.broadcast: fan the tagged message out across the whole
connection table. -/
def broadcast (st : WSState) (sid : String) (msg : WsMessage) :
    WSState × List (String × WsMessage) :=
  (⟨(broadcastGo sid msg st.connections).1, st.streamHandlers⟩,
   (broadcastGo sid msg st.connections).2)

/-- State of AudioProcessor (services/AudioProcessor.ts) combined with
the stream-handler registry it registers into: `audioBuffers` is the
per-stream map of buffered byte chunks (`Map<string, Buffer[]>`),
`streamHandlers` the keys registered in the WSServer, and `transcripts`
counts the invocations of the transcription backend
(`transcribeAudio`), the observable effect of `processAudioBuffer`. -/
structure APState where
  audioBuffers : List (String × List (List Nat))
  streamHandlers : List String
  transcripts : Nat
  deriving DecidableEq, Repr

/-- The buffered-duration estimate of AudioProcessor.handleAudioChunk:
`(buffer.length * audioData.length) / (sampleRate * channels *
(bitDepth / 8))` with sampleRate 8000, channels 1 and bitDepth 16;
`chunkCount` is the number of buffered chunks after the push and
`byteLen` the byte length of the chunk just decoded. -/
def bufferDurationQ (chunkCount byteLen : Nat) : ℚ :=
  ((chunkCount * byteLen : Nat) : ℚ) / (8000 * 1 * (16 / 8))

/-- AudioProcessor.processAudioBuffer: if the buffer for the stream is
absent or empty, return unchanged; otherwise concatenate the chunks,
hand them to the transcription backend (counted in `transcripts`) and
clear the buffer in place (the key stays, with an empty chunk list).
The scratch WAV file written and unlinked around the backend call is
filesystem-only and has no further observable effect. -/
def processAudioBuffer (streamSid : String) (st : APState) : APState :=
  match mapGet st.audioBuffers streamSid with
  | none => st
  | some buffer =>
      if buffer.length = 0 then st
      else
        { st with
          transcripts := st.transcripts + 1,
          audioBuffers := mapSet st.audioBuffers streamSid [] }

/-- AudioProcessor.handleAudioChunk: ensure a buffer exists for the
stream; if the chunk has a media part with a truthy (non-empty) base64
payload, push the decoded bytes, recompute the duration estimate and
run `processAudioBuffer` once the estimate reaches 2.0 seconds. -/
def handleAudioChunk (streamSid : String) (chunk : ChunkPayload) (st : APState) :
    APState :=
  let buffers0 :=
    if (mapGet st.audioBuffers streamSid).isSome then st.audioBuffers
    else mapSet st.audioBuffers streamSid []
  match chunk.media with
  | some m =>
      if m.b64 = "" then { st with audioBuffers := buffers0 }
      else
        let audioData := m.bytes
        let buffer := (mapGet buffers0 streamSid).getD []
        let buffers1 := mapSet buffers0 streamSid (buffer ++ [audioData])
        if 2 ≤ bufferDurationQ (buffer ++ [audioData]).length audioData.length then
          processAudioBuffer streamSid { st with audioBuffers := buffers1 }
        else { st with audioBuffers := buffers1 }
  | none => { st with audioBuffers := buffers0 }

/-- The stream handler that AudioProcessor.processAudioStream registers
with the WSServer: media messages with a payload go to
`handleAudioChunk`, mark messages are only logged, and every other
message type (including the synthetic `error` notifications the
WSServer sends on socket close) is ignored. -/
def streamHandlerStep (streamSid : String) (msg : WsMessage) (st : APState) :
    APState :=
  match msg.type, msg.payload with
  | .media, some chunk => handleAudioChunk streamSid chunk st
  | _, _ => st

/-- State right after AudioProcessor.processAudioStream(streamSid): an
empty chunk buffer installed for the stream and the handler registered
with the WSServer. -/
def initStreamState (streamSid : String) : APState :=
  { audioBuffers := [(streamSid, [])], streamHandlers := [streamSid], transcripts := 0 }

/-- The stop() closure returned by AudioProcessor.processAudioStream,
translated statement by statement: unregister the stream handler,
delete the per-stream buffer, then read the buffer back
(`this.audioBuffers.get(streamSid) || []`) and flush it through one
final `processAudioBuffer` pass only when it is non-empty.  The read
happens after the delete, exactly as in the source. -/
def stopStream (streamSid : String) (st : APState) : APState :=
  let st1 := { st with streamHandlers := st.streamHandlers.filter (fun h => h != streamSid) }
  let st2 := { st1 with audioBuffers := mapDel st1.audioBuffers streamSid }
  let remainingAudio := (mapGet st2.audioBuffers streamSid).getD []
  if 0 < remainingAudio.length then processAudioBuffer streamSid st2 else st2

/-- Driving `n` identical media frames of `s` decoded bytes each through
the registered stream handler, as the Twilio media stream would. -/
def mediaFrame (s : Nat) : WsMessage :=
  { type := .media,
    streamSid := some "CA1",
    payload := some { media := some { b64 := "QQ==", bytes := List.replicate s 0 } } }

/-- Feed `n` equal-size media frames to the accumulator in sequence. -/
def feedFrames (s : Nat) : Nat → APState → APState
  | 0, st => st
  | n + 1, st => feedFrames s n (streamHandlerStep "CA1" (mediaFrame s) st)

/-- Total number of buffered bytes in a chunk list. -/
def sumBytes (buffer : List (List Nat)) : Nat :=
  (buffer.map List.length).sum

/-- Accumulator state after `j` equal frames of `s` bytes have been
buffered for stream CA1 with `t` transcription passes already done. -/
def mkSt (s j t : Nat) : APState :=
  { audioBuffers := [("CA1", List.replicate j (List.replicate s 0))],
    streamHandlers := ["CA1"],
    transcripts := t }

/-- The 2.0-second threshold test of handleAudioChunk, reduced to bytes:
with 8 kHz, mono, 16-bit audio the divisor is 16000 bytes per second,
so the estimate reaches 2.0 exactly when 32000 bytes are buffered. -/
lemma two_le_bufferDurationQ (c b : Nat) :
    2 ≤ bufferDurationQ c b ↔ 32000 ≤ c * b := by
  unfold bufferDurationQ
  rw [show ((8000 * 1 * (16 / 8) : ℚ)) = 16000 by norm_num,
    le_div_iff₀ (by norm_num : (0 : ℚ) < 16000),
    show ((2 : ℚ) * 16000) = ((32000 : ℕ) : ℚ) by norm_num,
    Nat.cast_le]

/-- Effect of one media frame of `s` bytes on the accumulator: the chunk
is appended; if the duration estimate of the grown buffer reaches 2.0
seconds one transcription pass runs and the buffer is cleared, otherwise
the frame just accumulates. -/
lemma step_mkSt (s j t : Nat) :
    streamHandlerStep "CA1" (mediaFrame s) (mkSt s j t)
      = if 32000 ≤ (j + 1) * s then mkSt s 0 (t + 1) else mkSt s (j + 1) t := by
  by_cases h : 32000 ≤ (j + 1) * s
  · simp [streamHandlerStep, mediaFrame, handleAudioChunk, mkSt, mapGet, mapSet,
      processAudioBuffer, two_le_bufferDurationQ, h, List.replicate_succ']
  · simp [streamHandlerStep, mediaFrame, handleAudioChunk, mkSt, mapGet, mapSet,
      two_le_bufferDurationQ, h, List.replicate_succ']

/-- Feeding frames splits across a sum of counts. -/
lemma feedFrames_add (s a b : Nat) (st : APState) :
    feedFrames s (a + b) st = feedFrames s b (feedFrames s a st) := by
  induction a generalizing st with
  | zero => rw [Nat.zero_add]; rfl
  | succ a ih =>
      rw [show a + 1 + b = (a + b) + 1 from by omega]
      exact ih (streamHandlerStep "CA1" (mediaFrame s) st)

/-- While the byte total stays under 32000, frames only accumulate. -/
lemma feedFrames_no_cross (s : Nat) :
    ∀ j m t, (m + j) * s < 32000 →
      feedFrames s j (mkSt s m t) = mkSt s (m + j) t := by
  intro j
  induction j with
  | zero => intro m t _; rfl
  | succ j ih =>
      intro m t hbound
      have hstep : ¬ 32000 ≤ (m + 1) * s := by
        have hle : (m + 1) * s ≤ (m + (j + 1)) * s :=
          Nat.mul_le_mul_right s (by omega)
        omega
      show feedFrames s j (streamHandlerStep "CA1" (mediaFrame s) (mkSt s m t)) = _
      rw [step_mkSt, if_neg hstep,
        ih (m + 1) t (by rw [show m + 1 + j = m + (j + 1) from by omega]; exact hbound),
        show m + 1 + j = m + (j + 1) from by omega]

/-- Total bytes of `j` equal chunks of `s` bytes. -/
lemma sumBytes_replicate (j s : Nat) :
    sumBytes (List.replicate j (List.replicate s 0)) = j * s := by
  induction j with
  | zero => simp [sumBytes]
  | succ j ih =>
      simp only [sumBytes, List.replicate_succ, List.map_cons, List.sum_cons,
        List.length_replicate] at ih ⊢
      rw [ih]
      ring

/-- C1: calling stop() on the handle returned by
AudioProcessor.processAudioStream does unregister the stream handler,
but the source deletes the per-stream buffer before reading it back, so
the "remaining audio" it inspects is always empty and the promised
final transcription pass never runs.  First conjunct: with three bytes
still buffered for stream CA1, stop() removes the handler and the
buffer yet performs zero transcription passes, contradicting the
claimed single final pass over a non-empty buffer.  Second conjunct: no
stop() call, on any state, ever changes the transcription count. -/
theorem audioStop_flushes_nothing :
    stopStream "CA1" ⟨[("CA1", [[1, 2, 3]])], ["CA1"], 0⟩
        = ⟨[], [], 0⟩
    ∧ ∀ st sid, (stopStream sid st).transcripts = st.transcripts := by
  refine ⟨rfl, fun st sid => ?_⟩
  simp [stopStream, mapGet_mapDel]

/-- C2: feeding the accumulator `n` equal media frames of `s` decoded
bytes each, totalling 3 seconds of 8 kHz mono 16-bit audio
(`n * s = 48000` bytes), triggers exactly one transcription-backend
invocation, at the first frame `k` where the buffered total reaches the
2.0-second threshold (32000 bytes); the per-stream buffer is empty
immediately after that invocation, no invocation happens before it,
none happens on the remaining frames, and for equal frames the duration
estimate equals bufferedBytes / (sampleRate * channels *
bytesPerSample). -/
theorem audioAccumulator_one_flush (s n k : Nat) (_hs : 0 < s)
    (hn : n * s = 48000) (hk : 32000 ≤ k * s) (hk' : (k - 1) * s < 32000) :
    (feedFrames s k (initStreamState "CA1")).transcripts = 1
    ∧ mapGet (feedFrames s k (initStreamState "CA1")).audioBuffers "CA1" = some []
    ∧ (feedFrames s n (initStreamState "CA1")).transcripts = 1
    ∧ (∀ j, j < k → (feedFrames s j (initStreamState "CA1")).transcripts = 0)
    ∧ (∀ j, bufferDurationQ j s
          = (sumBytes (List.replicate j (List.replicate s 0)) : ℚ)
              / (8000 * 1 * (16 / 8))) := by
  have hk1 : 1 ≤ k := by
    rcases Nat.eq_zero_or_pos k with h | h
    · subst h; simp at hk
    · exact h
  have hkn : k ≤ n := by
    have h1 : (k - 1) * s < n * s := by omega
    have h2 : k - 1 < n := Nat.lt_of_mul_lt_mul_right h1
    omega
  have hinit : initStreamState "CA1" = mkSt s 0 0 := rfl
  have hfk : feedFrames s k (initStreamState "CA1") = mkSt s 0 1 := by
    obtain ⟨q, rfl⟩ : ∃ q, k = q + 1 := ⟨k - 1, by omega⟩
    rw [hinit, feedFrames_add s q 1,
      feedFrames_no_cross s q 0 0
        (by rw [Nat.zero_add]; simpa using hk')]
    show streamHandlerStep "CA1" (mediaFrame s) (mkSt s (0 + q) 0) = mkSt s 0 1
    rw [Nat.zero_add, step_mkSt, if_pos hk]
  have hrestbound : (0 + (n - k)) * s < 32000 := by
    rw [Nat.zero_add, Nat.sub_mul]
    generalize hK : k * s = K at hk
    generalize hN : n * s = N at hn
    omega
  refine ⟨by rw [hfk]; rfl, by rw [hfk]; rfl, ?_, ?_, ?_⟩
  · rw [show n = k + (n - k) from by omega, feedFrames_add, hfk,
      feedFrames_no_cross s (n - k) 0 1 hrestbound]
    rfl
  · intro j hj
    rw [hinit,
      feedFrames_no_cross s j 0 0
        (by
          rw [Nat.zero_add]
          have : j * s ≤ (k - 1) * s := Nat.mul_le_mul_right s (by omega)
          omega)]
    rfl
  · intro j
    rw [sumBytes_replicate]
    rfl

/-- Witness for the accumulator theorem: three one-second frames of
16000 bytes; the threshold is first crossed at the second frame. -/
theorem audioAccumulator_one_flush_witness :
    (feedFrames 16000 2 (initStreamState "CA1")).transcripts = 1
    ∧ mapGet (feedFrames 16000 2 (initStreamState "CA1")).audioBuffers "CA1" = some []
    ∧ (feedFrames 16000 3 (initStreamState "CA1")).transcripts = 1
    ∧ (∀ j, j < 2 → (feedFrames 16000 j (initStreamState "CA1")).transcripts = 0)
    ∧ (∀ j, bufferDurationQ j 16000
          = (sumBytes (List.replicate j (List.replicate 16000 0)) : ℚ)
              / (8000 * 1 * (16 / 8))) :=
  audioAccumulator_one_flush 16000 3 2 (by norm_num) (by norm_num)
    (by norm_num) (by norm_num)

/-- Example registry state: one open connection and one registered
stream handler for stream CA1. -/
def wsStateEx : WSState :=
  { connections := [("conn-1", ReadyState.opened)], streamHandlers := ["CA1"] }

/-- Example accumulator state for stream CA1 holding two buffered bytes. -/
def apStateEx : APState :=
  { audioBuffers := [("CA1", [[1, 2]])], streamHandlers := ["CA1"], transcripts := 0 }

/-- C3 counterexample: when the socket of conn-1 closes while stream
CA1 is accumulating audio, the stream handler for CA1 is still
registered afterwards (the close handler only notifies, it never calls
unregisterStreamHandler), and the synthetic `Connection closed` error
message is ignored by the accumulator handler, leaving the stale
per-stream buffer in place.  This refutes the claim that socket close
removes the stream handlers from the Connection Registry. -/
theorem socketClose_leaves_handler_registered :
    (wsOnClose "conn-1" wsStateEx).1.streamHandlers = ["CA1"]
    ∧ "CA1" ∈ (wsOnClose "conn-1" wsStateEx).1.streamHandlers
    ∧ streamHandlerStep "CA1" (closeNotice "CA1") apStateEx = apStateEx := by
  refine ⟨rfl, ?_, rfl⟩
  simp [wsOnClose, wsStateEx]

/-- C3 amended: on socket close the connection is removed from the
table and every registered stream handler is notified with the
synthetic `Connection closed` error message, but the stream handlers
all remain registered (removal happens only through an explicit stop()
on the accumulator handle), and the accumulator handler ignores the
synthetic error message, so the per-stream buffer survives unchanged. -/
theorem socketClose_notifies_but_keeps_handlers (st : WSState)
    (connectionId : String) (apSt : APState) (sid : String) :
    (wsOnClose connectionId st).1.streamHandlers = st.streamHandlers
    ∧ (wsOnClose connectionId st).1.connections = mapDel st.connections connectionId
    ∧ (wsOnClose connectionId st).2
        = st.streamHandlers.map (fun h => (h, closeNotice h))
    ∧ streamHandlerStep sid (closeNotice sid) apSt = apSt :=
  ⟨rfl, rfl, rfl, rfl⟩

/-- C6 counterexample: a socket error on conn-1 removes the connection
but delivers no notification at all, even though the stream handler for
CA1 is registered; this refutes the claim that handlers are notified
with the synthetic `Connection closed` message on socket error as well
as on close. -/
theorem socketError_notifies_nobody :
    (wsOnError "conn-1" wsStateEx).2 = []
    ∧ wsStateEx.streamHandlers = ["CA1"]
    ∧ (wsOnError "conn-1" wsStateEx).1.connections = [] :=
  ⟨rfl, rfl, rfl⟩

/-- C6 amended: on socket close the connection is removed and every
registered stream handler receives the synthetic `Connection closed`
error message; on socket error the connection is removed from the table
but no handler notification is sent. -/
theorem socketClose_vs_error_notifications (st : WSState) (connectionId : String) :
    (wsOnClose connectionId st).2
        = st.streamHandlers.map (fun h => (h, closeNotice h))
    ∧ (wsOnClose connectionId st).1.connections = mapDel st.connections connectionId
    ∧ (wsOnError connectionId st).1.connections = mapDel st.connections connectionId
    ∧ (wsOnError connectionId st).2 = [] :=
  ⟨rfl, rfl, rfl, rfl⟩

/-- C9: broadcast(streamSid, message) delivers the message, tagged with
the stream identifier, to exactly the connections whose socket is open
— every open connection in the table receives it, regardless of which
connection the stream originated from — and the table afterwards keeps
exactly the open connections. -/
lemma broadcastGo_spec (sid : String) (msg : WsMessage) :
    ∀ conns : List (String × ReadyState),
      broadcastGo sid msg conns
        = (conns.filter (fun c => c.2 = ReadyState.opened),
           (conns.filter (fun c => c.2 = ReadyState.opened)).map
             (fun c => (c.1, { msg with streamSid := some sid }))) := by
  intro conns
  induction conns with
  | nil => rfl
  | cons c rest ih =>
      obtain ⟨c1, c2⟩ := c
      by_cases h : c2 = ReadyState.opened
      · subst h; simp [broadcastGo, List.filter_cons, ih]
      · simp [broadcastGo, List.filter_cons, h, ih]

theorem broadcast_fans_out_to_all_open (st : WSState) (sid : String) (msg : WsMessage) :
    (broadcast st sid msg).2
        = (st.connections.filter (fun c => c.2 = ReadyState.opened)).map
            (fun c => (c.1, { msg with streamSid := some sid }))
    ∧ (broadcast st sid msg).1.connections
        = st.connections.filter (fun c => c.2 = ReadyState.opened)
    ∧ (broadcast st sid msg).1.streamHandlers = st.streamHandlers := by
  refine ⟨?_, ?_, rfl⟩ <;>
    simp [broadcast, broadcastGo_spec]

/-- User record of services/auth.ts. -/
structure User where
  id : String
  phoneNumber : String
  deriving DecidableEq, Repr

/-- Return shape of AuthService.validateToken. -/
structure ValidateTokenOutcome where
  user : Option User
  message : Option String := none
  deriving DecidableEq, Repr

/-- AuthService.validateToken over an explicit token store (the
module-level `tokenStore` map): look the token up; when absent, resolve
with no user and the message `Invalid or expired token`.  The function
always resolves — its try/catch never rethrows. -/
def validateToken (tokenStore : List (String × User)) (token : String) :
    ValidateTokenOutcome :=
  match mapGet tokenStore token with
  | none => { user := none, message := some "Invalid or expired token" }
  | some u => { user := some u }

/-- Result shape of the tools/validate handler in index.ts
(ValidateToolResult of tools.ts). -/
structure ValidateToolResultM where
  phoneNumber : String
  isValid : Bool
  message : Option String := none
  deriving DecidableEq, Repr

/-- The tools/validate handler of index.ts: call validateToken; with no
user, answer isValid false carrying the message (defaulted to `Invalid
token`); with a user, answer isValid true with the phone number. -/
def validateToolHandler (tokenStore : List (String × User)) (token : String) :
    ValidateToolResultM :=
  let r := validateToken tokenStore token
  match r.user with
  | none => { phoneNumber := "", isValid := false,
              message := some (r.message.getD "Invalid token") }
  | some u => { phoneNumber := u.phoneNumber, isValid := true,
                message := some "Token validated successfully" }

/-- Result shape of the tools/validate handler in mcpServer.ts. -/
structure McpValidateResult where
  isValid : Bool
  userId : Option String := none
  phoneNumber : Option String := none
  deriving DecidableEq, Repr

/-- The tools/validate handler of mcpServer.ts (createMCPServer): it
awaits validateToken and then unconditionally answers isValid true with
the optional user fields; its catch branch (isValid false) is
unreachable because validateToken always resolves. -/
def mcpValidateHandler (tokenStore : List (String × User)) (token : String) :
    McpValidateResult :=
  let userInfo := validateToken tokenStore token
  { isValid := true,
    userId := userInfo.user.map User.id,
    phoneNumber := userInfo.user.map User.phoneNumber }

/-- C4: at the failing input — the unregistered token `unknown-token`
against an empty token store — the index.ts tools/validate handler does
return isValid false with message `Invalid or expired token` and cannot
throw (the embedding is total), but the mcpServer.ts tools/validate
handler returns isValid true with no user fields, because
AuthService.validateToken resolves with a null user instead of
throwing, leaving the invalid-token branch of the handler unreachable.  The
second conjunct generalises: the mcpServer.ts handler answers isValid
true for every store and token. -/
theorem validate_unregistered_token :
    validateToolHandler [] "unknown-token"
        = { phoneNumber := "", isValid := false,
            message := some "Invalid or expired token" }
    ∧ mcpValidateHandler [] "unknown-token"
        = { isValid := true, userId := none, phoneNumber := none }
    ∧ ∀ tokenStore token, (mcpValidateHandler tokenStore token).isValid = true :=
  ⟨rfl, rfl, fun _ _ => rfl⟩

/-- JS number-to-integer conversion used by Array.prototype.slice:
truncation toward zero. -/
def ratTrunc (q : ℚ) : Int :=
  if q < 0 then -((-q).floor) else q.floor

/-- Array.prototype.slice(0, e) for a possibly fractional or negative
end index: truncate toward zero, count negative indices from the end,
clamp to the array bounds. -/
def jsSliceTo {α : Type} (l : List α) (e : ℚ) : List α :=
  let t : Int := ratTrunc e
  let fin : Int := if t < 0 then (l.length : Int) + t else min t (l.length : Int)
  l.take fin.toNat

/-- JS String.prototype.includes for a non-empty pattern: the pattern
occurs as a substring exactly when splitting on it yields more than one
part. -/
def containsSub (s pat : String) : Bool :=
  2 ≤ (s.splitOn pat).length

/-- Summary styles of services/summarization.ts (the switch treats any
other string as key_points via its default case). -/
inductive SumStyle
  | bullet
  | paragraph
  | keyPoints
  deriving DecidableEq, Repr

/-- SummarizationOptions of services/summarization.ts; absent fields
take the destructuring defaults 150 and key_points. -/
structure SummarizationOptions where
  text : String
  maxLength : Option Int := none
  style : Option SumStyle := none
  deriving DecidableEq, Repr

/-- Sentiment classification values. -/
inductive Sentiment
  | positive
  | negative
  | neutral
  deriving DecidableEq, Repr

/-- SummarizationResult of services/summarization.ts. -/
structure SummarizationResult where
  summary : String
  originalLength : Nat
  summaryLength : Nat
  keyTopics : List String
  sentiment : Sentiment
  deriving DecidableEq, Repr

/-- Error taxonomy of the specification for summarize: `EmptyInput` for
blank text, `InvalidLength` for non-positive maxLength, `Wrapped` for
the catch-all rethrow (`Failed to summarize text: ...`).  The source of
services/summarization.ts defines no EmptyInput or InvalidLength
condition; the constructors exist so the claim about them can be
stated. -/
inductive SummarizeError
  | EmptyInput
  | InvalidLength
  | Wrapped (msg : String)
  deriving DecidableEq, Repr

/-- SummarizationService.performSummarization: split on single spaces,
keep the first `min(maxLength / 5, words.length)` words, and wrap them
in the canned style template. -/
def performSummarization (text : String) (maxLength : Int) (style : SumStyle) :
    String :=
  let words := text.splitOn " "
  let truncated :=
    String.intercalate " "
      (jsSliceTo words (min ((maxLength : ℚ) / 5) ((words.length : ℚ))))
  match style with
  | .bullet =>
      "• " ++ truncated ++
        "\n• Key points extracted from the conversation\n• Summary generated for quick reference"
  | .paragraph =>
      "This conversation covered " ++ truncated ++
        ". The main discussion points were addressed and the key outcomes were noted."
  | .keyPoints =>
      "Key Points:\n1. " ++ truncated ++
        "\n2. Important discussion topics\n3. Action items identified"

/-- SummarizationService.analyzeSentiment: count which fixed positive
and negative keywords occur in the lowercased text and pick the strict
majority, defaulting to neutral. -/
def analyzeSentiment (text : String) : Sentiment :=
  let positiveWords := ["good", "great", "excellent", "happy", "satisfied", "love", "amazing"]
  let negativeWords := ["bad", "terrible", "awful", "angry", "frustrated", "hate", "disappointed"]
  let lowerText := text.toLower
  let positiveCount := (positiveWords.filter (fun w => containsSub lowerText w)).length
  let negativeCount := (negativeWords.filter (fun w => containsSub lowerText w)).length
  if negativeCount < positiveCount then .positive
  else if positiveCount < negativeCount then .negative
  else .neutral

/-- SummarizationService.extractKeyTopics: the fixed vocabulary terms
that occur in the lowercased text. -/
def extractKeyTopics (text : String) : List String :=
  let commonTopics := ["customer service", "order status", "billing", "technical support",
    "product inquiry", "complaint", "feedback", "refund", "delivery"]
  commonTopics.filter (fun topic => containsSub text.toLower topic)

/-- SummarizationService.summarize: destructure with defaults, build
the canned summary, sentiment and topics, and resolve with the result
record.  The method performs no validation of text or maxLength — the
only throw site is the catch-all rethrow, and nothing in the try block
can throw — so the error side of the codomain is never produced. -/
def summarize (options : SummarizationOptions) :
    Except SummarizeError SummarizationResult :=
  let text := options.text
  let maxLength := options.maxLength.getD 150
  let style := options.style.getD .keyPoints
  let summary := performSummarization text maxLength style
  Except.ok
    { summary := summary,
      originalLength := text.length,
      summaryLength := summary.length,
      keyTopics := extractKeyTopics text,
      sentiment := analyzeSentiment text }

/-- C5 counterexample: summarize with blank text does not fail with
EmptyInput (it succeeds), and summarize with maxLength 0 does not fail
with InvalidLength (it succeeds as well) — the claimed precondition
checks do not exist in the code, whose only constructor on this path is
Except.ok. -/
theorem summarize_counterexample :
    summarize { text := "" } ≠ Except.error SummarizeError.EmptyInput
    ∧ summarize { text := "hello world", maxLength := some 0 }
        ≠ Except.error SummarizeError.InvalidLength
    ∧ (∃ r, summarize { text := "" } = Except.ok r)
    ∧ (∃ r, summarize { text := "hello world", maxLength := some 0 } = Except.ok r) :=
  ⟨fun h => Except.noConfusion h, fun h => Except.noConfusion h, ⟨_, rfl⟩, ⟨_, rfl⟩⟩

/-- C5 amended: summarize validates nothing.  For every text, maxLength
and style — blank text and non-positive maxLength included — it
succeeds, returning the canned style-based summary with originalLength
equal to the character count of the input; it never produces EmptyInput
or InvalidLength. -/
theorem summarize_always_succeeds (options : SummarizationOptions) :
    ∃ r, summarize options = Except.ok r
      ∧ r.originalLength = options.text.length :=
  ⟨_, rfl, rfl⟩

/-- A recording as reported by the Twilio provider (the fields
TwilioService.recordCall reads); `duration` is carried already parsed,
the numeric parse of the provider string being external. -/
structure ProviderRecording where
  sid : String
  callSid : String
  status : String
  uri : String
  duration : Option Int := none
  deriving DecidableEq, Repr

/-- Recording actions of the record tool. -/
inductive RecordAction
  | start
  | stop
  deriving DecidableEq, Repr

/-- Recording channel modes. -/
inductive RecChannels
  | dual
  | single
  deriving DecidableEq, Repr

/-- Options object of TwilioService.recordCall. -/
structure RecordCallOptions where
  callId : String
  action : RecordAction
  recordingChannels : Option RecChannels := none
  recordingStatusCallback : Option String := none
  deriving DecidableEq, Repr

/-- Return shape of TwilioService.recordCall. -/
structure RecordSnapshot where
  sid : String
  callSid : String
  status : String
  uri : String
  duration : Option Int := none
  deriving DecidableEq, Repr

/-- TwilioService.recordCall with the provider injected: `created` is
the provider response to recordings.create (start branch), `recordings`
the provider recording list for the call and `updated` the provider
response to the status-stopped update (stop branch).  On stop with an
empty provider list it throws `No active recordings found for call
<id>`; the start branch returns the created snapshot without a
duration. -/
def recordCall (opts : RecordCallOptions) (created : ProviderRecording)
    (recordings : List ProviderRecording) (updated : ProviderRecording) :
    Except String RecordSnapshot :=
  match opts.action with
  | .start =>
      Except.ok
        { sid := created.sid, callSid := created.callSid,
          status := created.status, uri := created.uri, duration := none }
  | .stop =>
      if recordings.isEmpty then
        Except.error ("No active recordings found for call " ++ opts.callId)
      else
        Except.ok
          { sid := updated.sid, callSid := updated.callSid,
            status := updated.status, uri := updated.uri,
            duration := updated.duration }

/-- Result shape of the tools/record handler in index.ts. -/
structure RecordToolResultM where
  recordingId : String
  callId : String
  status : String
  action : RecordAction
  recordingUrl : Option String := none
  duration : Option Int := none
  deriving DecidableEq, Repr

/-- The tools/record handler of index.ts: delegate to
TwilioService.recordCall, reshape the snapshot, and rewrap a failure as
`Failed to record call: <message>`. -/
def recordToolHandler (opts : RecordCallOptions) (created : ProviderRecording)
    (recordings : List ProviderRecording) (updated : ProviderRecording) :
    Except String RecordToolResultM :=
  match recordCall opts created recordings updated with
  | .ok r =>
      .ok { recordingId := r.sid, callId := r.callSid, status := r.status,
            action := opts.action, recordingUrl := some r.uri,
            duration := r.duration }
  | .error e => .error ("Failed to record call: " ++ e)

/-- Result shape of the tools/record handler in mcpServer.ts. -/
structure McpRecordResult where
  status : String
  callSid : String
  deriving DecidableEq, Repr

/-- The tools/record handler of mcpServer.ts (createMCPServer): a stub
that never consults the provider and answers `started` or `stopped`
unconditionally. -/
def mcpRecordHandler (callSid : String) (action : RecordAction) : McpRecordResult :=
  match action with
  | .start => { status := "started", callSid := callSid }
  | .stop => { status := "stopped", callSid := callSid }

/-- C7 counterexample: stopping a recording on call CA123 — a call for
which the provider reports zero recordings — through the mcpServer.ts
record handler yields the plain success value `stopped` (the handler is
total and cannot fail), not a NoActiveRecording failure; the claim is
false for this registered record handler. -/
theorem mcpRecord_stop_never_fails :
    mcpRecordHandler "CA123" RecordAction.stop
      = { status := "stopped", callSid := "CA123" } :=
  rfl

/-- C7 amended: the provider-backed record operation —
TwilioService.recordCall and the index.ts tools/record handler built on
it — fails with the `No active recordings found` error when the
provider reports zero recordings for action stop, for every call
identifier, channel mode, callback and injected provider responses;
the stub handler of mcpServer.ts instead succeeds unconditionally. -/
theorem recordCall_stop_no_recordings (callId : String)
    (channels : Option RecChannels) (cb : Option String)
    (created updated : ProviderRecording) :
    recordCall ⟨callId, .stop, channels, cb⟩ created [] updated
        = Except.error ("No active recordings found for call " ++ callId)
    ∧ recordToolHandler ⟨callId, .stop, channels, cb⟩ created [] updated
        = Except.error ("Failed to record call: "
            ++ ("No active recordings found for call " ++ callId)) :=
  ⟨rfl, rfl⟩

/-- Arguments of the call tool after schema defaults (voice `alice`,
language `en-US`). -/
structure CallArgs where
  toNum : String
  message : String
  voice : String := "alice"
  language : String := "en-US"
  deriving DecidableEq, Repr

/-- Return shape of TwilioService.makeCall, i.e. the provider response
fields the handlers read; `fromNum` and `toNum` model the JS fields
`from` and `to` (Lean keywords). -/
structure ProviderCall where
  sid : String
  status : String
  toNum : String
  fromNum : String
  direction : String
  deriving DecidableEq, Repr

/-- Result shape of the tools/call handler in index.ts (CallToolResult
of tools.ts). -/
structure CallToolResultM where
  callId : String
  status : String
  toNum : String
  fromNum : String
  message : String
  deriving DecidableEq, Repr

/-- The tools/call handler of index.ts (identical in the compiled
server of src/unnamed/part_000): pass the arguments to
TwilioService.makeCall — whose provider response is injected here as
`call` — and reshape it, copying `call.sid` into `callId` unchanged. -/
def callToolHandler (_args : CallArgs) (call : ProviderCall) : CallToolResultM :=
  { callId := call.sid, status := call.status, toNum := call.toNum,
    fromNum := call.fromNum, message := "Call initiated successfully" }

/-- Result shape of the tools/call handler in mcpServer.ts, whose
identifier field is named callSid; `dateCreated` is the injected clock
reading. -/
structure McpCallResult where
  callSid : String
  status : String
  fromNum : String
  toNum : String
  dateCreated : String
  deriving DecidableEq, Repr

/-- The tools/call handler of mcpServer.ts (createMCPServer): reshape
the provider response, copying `call.sid` into `callSid` unchanged;
`now` injects `new Date().toISOString()`. -/
def mcpCallHandler (call : ProviderCall) (now : String) : McpCallResult :=
  { callSid := call.sid, status := call.status, fromNum := call.fromNum,
    toNum := call.toNum, dateCreated := now }

/-- C8: for every valid call invocation, the identifier field of the
returned result is exactly the identifier the provider adapter returned
for the created call, with no transformation — in the index.ts handler
(field callId) and in the mcpServer.ts handler (field callSid) alike,
and the remaining fields are the provider values unchanged too. -/
theorem callTool_returns_provider_id (args : CallArgs) (call : ProviderCall)
    (now : String) :
    (callToolHandler args call).callId = call.sid
    ∧ (callToolHandler args call).status = call.status
    ∧ (callToolHandler args call).toNum = call.toNum
    ∧ (callToolHandler args call).fromNum = call.fromNum
    ∧ (mcpCallHandler call now).callSid = call.sid :=
  ⟨rfl, rfl, rfl, rfl, rfl⟩

/-- JS truthiness of an optional string argument: undefined and the
empty string are falsy. -/
def jsTruthyStr : Option String → Bool
  | none => false
  | some s => s ≠ ""

/-- Status values of a transcription. -/
inductive TStatus
  | completed
  | failed
  | inProgress
  deriving DecidableEq, Repr

/-- TranscriptionResult of services/transcription.ts (the metadata
subfields the transcribe method writes). -/
structure TranscriptionResultM where
  id : String
  text : String
  confidence : ℚ
  language : String
  duration : ℚ
  wordCount : Nat
  status : TStatus
  callSid : Option String := none
  startTime : Option String := none
  deriving DecidableEq, Repr

/-- Outcome of the batch path (performTranscription), injected as an
external collaborator: it downloads and transcribes over the network. -/
structure BatchResult where
  text : String
  confidence : ℚ
  duration : ℚ
  status : TStatus
  deriving DecidableEq, Repr

/-- Word count of the batch branch:
`text.trim().split(/\s+/).filter(w => w.length > 0).length`. -/
def countWords (text : String) : Nat :=
  ((text.trim.split Char.isWhitespace).filter (fun w => 0 < w.length)).length

/-- Observable outcome of TranscriptionService.transcribe: the resolved
or rejected result, and whether a real-time stream was started
(processAudioStream called and the processor stored in activeStreams). -/
structure TranscribeOutcome where
  result : Except String TranscriptionResultM
  streamStarted : Bool
  deriving Repr

/-- TranscriptionService.transcribe: when a truthy callId is given and
the audio processor exists (it is created only when the service is
constructed with an HTTP server), start a real-time stream and resolve
with an in-progress result; otherwise fall back to the batch path when
a truthy audioUrl is given (`performT` injects performTranscription);
otherwise throw, the catch rewrapping the message as `Failed to
transcribe audio: ...`.  `transcriptionId` injects the generated
`trans_<uuid>` and `now` the clock reading. -/
def transcribe (hasAudioProcessor : Bool) (callId audioUrl : Option String)
    (language : String) (transcriptionId : String) (now : String)
    (performT : String → String → BatchResult) : TranscribeOutcome :=
  if jsTruthyStr callId && hasAudioProcessor then
    { result := Except.ok
        { id := transcriptionId, text := "", confidence := 0,
          language := language, duration := 0, wordCount := 0,
          status := .inProgress, callSid := callId, startTime := some now },
      streamStarted := true }
  else if jsTruthyStr audioUrl then
    let transcription := performT (audioUrl.getD "") language
    { result := Except.ok
        { id := transcriptionId, text := transcription.text,
          confidence := transcription.confidence, language := language,
          duration := transcription.duration,
          wordCount := countWords transcription.text,
          status := transcription.status },
      streamStarted := false }
  else
    { result := Except.error
        ("Failed to transcribe audio: "
          ++ "Either callId (for real-time) or audioUrl (for batch) must be provided"),
      streamStarted := false }

/-- C10: on a TranscriptionService constructed without an HTTP server
(no WebSocket server, no audio processor), transcribe with any callId
and no audioUrl starts no stream and returns no in-progress result: it
rejects with the wrapped either-callId-or-audioUrl error even though a
callId was supplied. -/
theorem transcribe_without_processor_rejects (callId : String)
    (language transcriptionId now : String)
    (performT : String → String → BatchResult) :
    (transcribe false (some callId) none language transcriptionId now performT).result
        = Except.error
            ("Failed to transcribe audio: "
              ++ "Either callId (for real-time) or audioUrl (for batch) must be provided")
    ∧ (transcribe false (some callId) none language transcriptionId now
          performT).streamStarted = false := by
  constructor <;> simp [transcribe, jsTruthyStr]
